import Mathlib

/-!
Shallow embedding of `cli/src/cmd/verify.rs` (the `forge verify` command):
data model, artifact lookup, constructor-argument encoding, chain
resolution, compiler-version extraction and explorer-response
classification, together with theorems settling the specification claims.

External collaborators (the network client, the etherscan HTTP client, the
solc cache reader and the low-level ABI encoder) are modelled as inputs:
their outputs are parameters of the embedded functions, exactly where the
Rust code consumes their results.  Rust panics (`unwrap`, out-of-bounds
indexing) are modelled explicitly by a `panic` constructor of the outcome
type, so that "returns a typed error" and "aborts" are distinguishable.
-/

namespace Verify

/-- A single ABI parameter; `kind` is the canonical type string
(e.g. "uint256"), mirroring `ethers::abi::Param`. -/
structure Param where
  name : String
  kind : String
deriving DecidableEq, Repr

/-- `ethers::abi::Constructor`: just its input parameter list. -/
structure Constructor where
  inputs : List Param
deriving DecidableEq, Repr

/-- `ethers::abi::Contract` (the parsed ABI), restricted to the field this
code reads: the optional constructor descriptor. -/
structure Contract where
  constructor : Option Constructor
deriving DecidableEq, Repr

/-- `ethers::abi::StateMutability`.  Modelled from the ethabi dependency. -/
inductive StateMutability where
  | pure
  | view
  | nonpayable
  | payable
deriving DecidableEq, Repr

/-- Modelled from the ethabi dependency: `Default for StateMutability`
yields `NonPayable`. -/
instance : Inhabited StateMutability := ⟨StateMutability.nonpayable⟩

/-- `ethers::abi::Function`, the fields the code constructs. -/
structure Function where
  name : String
  inputs : List Param
  outputs : List Param
  constant : Bool
  state_mutability : StateMutability
deriving DecidableEq, Repr

/-- `ethers::abi::Function::signature`, modelled from the ethabi
dependency: `name(inType,...)`, with `:(outType,...)` appended only when
there are outputs. -/
def Function.signature (f : Function) : String :=
  let inputTypes := String.intercalate "," (f.inputs.map Param.kind)
  let outputTypes := String.intercalate "," (f.outputs.map Param.kind)
  if f.outputs.isEmpty then
    f.name ++ "(" ++ inputTypes ++ ")"
  else
    f.name ++ "(" ++ inputTypes ++ "):(" ++ outputTypes ++ ")"

/-- One compiled artifact of `MinimalCombinedArtifacts`
(`CompactContract`): optional ABI and optional bytecode object.  The
bytecode object is kept abstract as its string content. -/
structure CompactContract where
  abi : Option Contract
  bin : Option String
deriving DecidableEq, Repr

/-- `ContractInfo`: `<path>:<contractname>` or `<contractname>` from the
command line. -/
structure ContractInfo where
  path : Option String
  name : String
deriving DecidableEq, Repr

/-- `ethers::core::types::Chain`, the variants the match produces. -/
inductive Chain where
  | Mainnet
  | Ropsten
  | Rinkeby
  | Goerli
  | Kovan
  | XDai
deriving DecidableEq, Repr

/-- The typed failures `run` and its helpers report via `eyre::bail!` /
`eyre::Error::msg`, one constructor per distinct bail site. -/
inductive VerifyError where
  /-- "verifying requires giving out the source path" -/
  | pathRequired
  /-- "contract with duplicate name. pass path" -/
  | duplicateName
  /-- "could not find artifact" -/
  | artifactNotFound
  /-- "abi not found for `name`" -/
  | abiNotFound (name : String)
  /-- "bytecode not found for `name`" -/
  | bytecodeNotFound (name : String)
  /-- "duplicate contract name in the same source file" -/
  | duplicateInFile
  /-- "No constructor found but contract arguments provided" -/
  | noConstructorButArgs
  /-- "unexpected chain `id`" -/
  | unexpectedChain (id : Nat)
  /-- encoding failure surfaced from `SimpleCast::calldata` -/
  | calldataError (msg : String)
  /-- "Encountered an error verifying this contract: ..." carrying the
  response message and result payload -/
  | verificationRejected (message : String) (result : String)
deriving DecidableEq, Repr

/-- Result of running a fragment of the Rust code: normal return, typed
error return (`eyre::Result::Err`), or process abort (Rust panic). -/
inductive Outcome (α : Type) where
  | ok (a : α)
  | error (e : VerifyError)
  | panic (msg : String)
deriving DecidableEq, Repr

/-- Sequencing of fallible steps (`?` in the Rust code): errors and panics
propagate. -/
def Outcome.bind {α β : Type} : Outcome α → (α → Outcome β) → Outcome β
  | .ok a, f => f a
  | .error e, _ => .error e
  | .panic m, _ => .panic m

/-- Splitting a character list at every character satisfying `p`,
keeping empty pieces — the semantics of Rust's `str::split`.  The
accumulator holds the current piece reversed. -/
def splitPredAux (p : Char → Bool) : List Char → List Char → List String
  | [], acc => [String.mk acc.reverse]
  | c :: cs, acc =>
    if p c then String.mk acc.reverse :: splitPredAux p cs []
    else splitPredAux p cs (c :: acc)

/-- Rust `str::split(sep)` for a single-character separator. -/
def splitChar (sep : Char) (s : String) : List String :=
  splitPredAux (fun c => c = sep) s.data []

/-- Does `pat` occur as a contiguous sublist of `s`?  (Rust
`str::contains` over the character lists.) -/
def hasSubList (pat : List Char) : List Char → Bool
  | [] => pat.isEmpty
  | c :: cs => pat.isPrefixOf (c :: cs) || hasSubList pat cs

/-- Rust `str::contains(pat)`. -/
def containsSubstr (s pat : String) : Bool :=
  hasSubList pat.data s.data

/-- `str::split_whitespace`: split on whitespace, dropping empty pieces. -/
def split_whitespace (s : String) : List String :=
  (splitPredAux Char.isWhitespace s.data []).filter (fun t => t ≠ "")

/-- The loop body of `get_artifact_from_name`: walk the compiled artifacts
in iteration order, carrying the `contract_artifact` accumulator
(`has_found_contract` is its `isSome`).  For each entry the qualified name
is split on `:` and component `[1]` is indexed unguarded — a qualified name
without `:` aborts (Rust `Vec` indexing panic).  A second name match bails
with "contract with duplicate name. pass path". -/
def findUnique (requested : String) (found : Option CompactContract) :
    List (String × CompactContract) → Outcome (Option CompactContract)
  | [] => .ok found
  | (name, artifact) :: rest =>
    match (splitChar ':' name).get? 1 with
    | none => .panic "index out of bounds"
    | some artifact_contract_name =>
      if artifact_contract_name = requested then
        match found with
        | some _ => .error .duplicateName
        | none => findUnique requested (some artifact) rest
      else
        findUnique requested found rest

/-- `VerifyArgs::get_artifact_from_name`: scan all compiled artifacts for
ones whose contract-name component matches `requested`; zero matches fail
with "could not find artifact", two or more with "contract with duplicate
name. pass path"; the unique match must then carry an ABI and bytecode.
`compiled` is the project compilation output as the association list
`compiled.into_artifacts()` iterates. -/
def get_artifact_from_name (requested : String)
    (compiled : List (String × CompactContract)) : Outcome (Contract × String) :=
  Outcome.bind (findUnique requested none compiled) fun contract_artifact =>
    match contract_artifact with
    | none => .error .artifactNotFound
    | some artifact =>
      match artifact.abi with
      | none => .error (.abiNotFound requested)
      | some abi =>
        match artifact.bin with
        | none => .error (.bytecodeNotFound requested)
        | some bin => .ok (abi, bin)

/-- `VerifyArgs::get_artifact_from_path`.  The canonicalisation, source
read and `SolFilesCache::read_artifacts` call are external collaborators;
`artifacts` is their output: the file's artifact records restricted to the
requested contract name, as collected into the `artifacts` vector.  Empty
fails with "could not find artifact", more than one with "duplicate
contract name in the same source file"; the single artifact must carry an
ABI and bytecode. -/
def get_artifact_from_path (requested : String)
    (artifacts : List CompactContract) : Outcome (Contract × String) :=
  if artifacts.isEmpty then
    .error .artifactNotFound
  else if 1 < artifacts.length then
    .error .duplicateInFile
  else
    match artifacts.get? 0 with
    | none => .panic "index out of bounds"
    | some artifact =>
      match artifact.abi with
      | none => .error (.abiNotFound requested)
      | some abi =>
        match artifact.bin with
        | none => .error (.bytecodeNotFound requested)
        | some bin => .ok (abi, bin)

/-- `VerifyArgs::get_compiler_version`, over the contract source file's
lines (the `File::open`/`BufReader` IO and its `line.unwrap()` are the
file-reading collaborator).  Returns the third whitespace-separated token
of the first line containing "pragma solidity"; that token is indexed with
`nth(2).unwrap()`, so a directive line with fewer than three tokens
aborts.  A file with no directive line returns `None`. -/
def get_compiler_version (lines : List String) : Outcome (Option String) :=
  match lines with
  | [] => .ok none
  | compiler_line :: rest =>
    if containsSubstr compiler_line "pragma solidity" then
      match (split_whitespace compiler_line).get? 2 with
      | none => .panic "called Option.unwrap on a None value"
      | some tok => .ok (some tok)
    else
      get_compiler_version rest

/-- The call site `self.get_compiler_version().unwrap()` in `run`: a
`None` from the extraction is unwrapped, aborting the process instead of
returning a typed error. -/
def compiler_version_step (lines : List String) : Outcome String :=
  Outcome.bind (get_compiler_version lines) fun v =>
    match v with
    | none => .panic "called Option.unwrap on a None value"
    | some version => .ok version

/-- The `match chain` table in `run`: the fixed numeric-id → `Chain`
mapping; any other id bails with "unexpected chain". -/
def resolve_chain (chain : Nat) : Outcome Chain :=
  match chain with
  | 1 => .ok .Mainnet
  | 3 => .ok .Ropsten
  | 4 => .ok .Rinkeby
  | 5 => .ok .Goerli
  | 42 => .ok .Kovan
  | 100 => .ok .XDai
  | c => .error (.unexpectedChain c)

/-- The synthetic `Function` built in `run` when the ABI declares a
constructor: the constructor's inputs, no outputs, `constant: false` and
`state_mutability: Default::default()`. -/
def mk_constructor_function (c : Constructor) : Function :=
  { name := "constructor"
    inputs := c.inputs
    outputs := []
    constant := false
    state_mutability := default }

/-- The constructor-argument block of `run`.  `calldata` is the
`SimpleCast::calldata` collaborator (the trusted ABI-encoding capability):
it receives a canonical signature and the raw argument strings.  A
declared constructor encodes the user arguments against the synthetic
descriptor's signature; no constructor with non-empty arguments bails with
"No constructor found but contract arguments provided"; no constructor and
no arguments leaves `constructor_args` as `None`. -/
def constructor_args_step (calldata : String → List String → Outcome String)
    (abi : Contract) (args : List String) : Outcome (Option String) :=
  match abi.constructor with
  | some c =>
    Outcome.bind (calldata (mk_constructor_function c).signature args) fun data =>
      .ok (some data)
  | none =>
    if args.isEmpty then .ok none
    else .error .noConstructorButArgs

/-- `etherscan::Response<String>`: status code, message, result payload. -/
structure Response where
  status : String
  message : String
  result : String
deriving DecidableEq, Repr

/-- The `VerifyContract` request assembled in `run`: deployed address,
source reference (the contract path), compiler version and the optional
encoded constructor arguments. -/
structure VerifyContract where
  address : String
  source : String
  compiler_version : String
  constructor_arguments : Option String
deriving DecidableEq, Repr

/-- The response classification at the end of `run`: failure status "0"
with message "Contract source code already verified" is a success; any
other status-"0" response bails carrying the message and result verbatim;
a non-"0" status is the submitted/accepted success path. -/
def classify_response (resp : Response) : Outcome Unit :=
  if resp.status = "0" then
    if resp.message = "Contract source code already verified" then
      .ok ()
    else
      .error (.verificationRejected resp.message resp.result)
  else
    .ok ()

/-- The inputs `run` draws from its collaborators: the chain id the
provider reports, the command-line contract reference and argument
strings, the full compilation output (available to `run` through the
compiled project), the path-restricted artifact records the solc cache
reader returns, the contract source file's lines, the deployed address and
the explorer's response to the submission. -/
structure RunInputs where
  chain : Nat
  contract : ContractInfo
  args : List String
  compiled : List (String × CompactContract)
  pathArtifacts : List CompactContract
  sourceLines : List String
  address : String
  response : Response
deriving Repr

/-- `run` up to the construction of the `VerifyContract` request, in the
code's sequencing: bail unless a source path was given, locate the
artifact through `get_artifact_from_path`, build the constructor
arguments, resolve the chain, unwrap the compiler version, then assemble
the request.  `compiled` is never consulted: the by-name lookup routine is
not invoked by `run`. -/
def run_build_request (calldata : String → List String → Outcome String)
    (inp : RunInputs) : Outcome VerifyContract :=
  match inp.contract.path with
  | none => .error .pathRequired
  | some contract_path =>
    Outcome.bind (get_artifact_from_path inp.contract.name inp.pathArtifacts)
      fun (located : Contract × String) =>
    Outcome.bind (constructor_args_step calldata located.1 inp.args)
      fun constructor_args =>
    Outcome.bind (resolve_chain inp.chain) fun _chain =>
    Outcome.bind (compiler_version_step inp.sourceLines) fun compiler_version =>
    .ok { address := inp.address
          source := contract_path
          compiler_version := compiler_version
          constructor_arguments := constructor_args }

/-- The whole of `run`: build and submit the request (submission itself is
the explorer collaborator; its response is `inp.response`), then classify
the response. -/
def run (calldata : String → List String → Outcome String)
    (inp : RunInputs) : Outcome Unit :=
  Outcome.bind (run_build_request calldata inp) fun _contract =>
    classify_response inp.response

/-! ### Concrete fixtures for witnesses and counterexamples -/

/-- Does this compiled entry's contract-name component match `requested`? -/
def nameMatches (requested : String) (q : String × CompactContract) : Bool :=
  (splitChar ':' q.1).get? 1 = some requested

/-- A trivially successful ABI-encoding collaborator, for concrete runs. -/
def calldata0 : String → List String → Outcome String :=
  fun _sig _args => Outcome.ok "0x"

/-- A concrete artifact carrying a constructor-less ABI and bytecode. -/
def art_token : CompactContract :=
  { abi := some { constructor := none }, bin := some "6080" }

/-- A concrete constructor taking `(uint256, string)`. -/
def ctor_token : Constructor :=
  { inputs := [{ name := "a", kind := "uint256" }, { name := "b", kind := "string" }] }

/-- A concrete ABI declaring `ctor_token` as its constructor. -/
def abi_token : Contract :=
  { constructor := some ctor_token }

/-- A concrete ABI declaring no constructor. -/
def abi_plain : Contract :=
  { constructor := none }

/-- A concrete invocation whose contract reference has no source path,
although the compiled output contains exactly one artifact whose
contract-name component is the requested "Token". -/
def inp_no_path : RunInputs :=
  { chain := 1
    contract := { path := none, name := "Token" }
    args := []
    compiled := [("src/Token.sol:Token", art_token)]
    pathArtifacts := [art_token]
    sourceLines := ["pragma solidity ^0.8.0;"]
    address := "0x0000000000000000000000000000000000000000"
    response := { status := "1", message := "OK", result := "guid" } }

/-- A concrete invocation that is valid in every respect except that its
source file contains no compiler-version directive line. -/
def inp_no_pragma : RunInputs :=
  { chain := 1
    contract := { path := some "src/C.sol", name := "C" }
    args := []
    compiled := [("src/C.sol:C", art_token)]
    pathArtifacts := [art_token]
    sourceLines := ["contract C"]
    address := "0x0000000000000000000000000000000000000000"
    response := { status := "1", message := "OK", result := "guid" } }

/-! ### Helper lemmas on splitting and the by-name scan -/

lemma bind_eq_ok {α β : Type} {o : Outcome α} {f : α → Outcome β} {b : β}
    (h : Outcome.bind o f = Outcome.ok b) :
    ∃ a, o = Outcome.ok a ∧ f a = Outcome.ok b := by
  cases o with
  | ok a => exact ⟨a, rfl, h⟩
  | error e => simp [Outcome.bind] at h
  | panic m => simp [Outcome.bind] at h

lemma splitPredAux_length_pos (p : Char → Bool) :
    ∀ (l acc : List Char), 1 ≤ (splitPredAux p l acc).length := by
  intro l
  induction l with
  | nil => intro acc; simp [splitPredAux]
  | cons c cs ih =>
    intro acc
    by_cases hc : p c
    · simp [splitPredAux, hc]
    · simpa [splitPredAux, hc] using ih (c :: acc)

lemma two_le_splitPredAux_length_iff (p : Char → Bool) :
    ∀ (l acc : List Char),
      2 ≤ (splitPredAux p l acc).length ↔ ∃ c ∈ l, p c := by
  intro l
  induction l with
  | nil => intro acc; simp [splitPredAux]
  | cons c cs ih =>
    intro acc
    by_cases hc : p c
    · have hpos := splitPredAux_length_pos p cs []
      simp [splitPredAux, hc]
      omega
    · simpa [splitPredAux, hc] using ih (c :: acc)

/-- A qualified name contains a `':'` exactly when splitting on `':'`
yields at least two components. -/
lemma colon_mem_iff_two_le (name : String) :
    ':' ∈ name.data ↔ 2 ≤ (splitChar ':' name).length := by
  rw [splitChar, two_le_splitPredAux_length_iff]
  simp

lemma findUnique_some (requested : String) (a : CompactContract) :
    ∀ (l : List (String × CompactContract)),
      (∀ q ∈ l, 2 ≤ (splitChar ':' q.1).length) →
      findUnique requested (some a) l =
        if (l.filter (nameMatches requested)).isEmpty then
          Outcome.ok (some a)
        else
          Outcome.error VerifyError.duplicateName := by
  intro l
  induction l with
  | nil => intro _hwf; simp [findUnique]
  | cons hd tl ih =>
    obtain ⟨name, artifact⟩ := hd
    intro hwf
    have h2 : 2 ≤ (splitChar ':' name).length :=
      hwf (name, artifact) (List.mem_cons_self _ _)
    obtain ⟨x, hget⟩ : ∃ x, (splitChar ':' name)[1]? = some x :=
      ⟨(splitChar ':' name).get ⟨1, by omega⟩,
        List.getElem?_eq_getElem (by omega)⟩
    have htl := ih (fun q hq => hwf q (List.mem_cons_of_mem _ hq))
    by_cases hm : x = requested
    · have hfc : List.filter (nameMatches requested) ((name, artifact) :: tl)
          = (name, artifact) :: List.filter (nameMatches requested) tl := by
        rw [List.filter_cons]
        simp [nameMatches, hget, hm]
      rw [hfc]
      simp [findUnique, hget, hm]
    · have hfc : List.filter (nameMatches requested) ((name, artifact) :: tl)
          = List.filter (nameMatches requested) tl := by
        rw [List.filter_cons]
        simp [nameMatches, hget, hm]
      rw [hfc]
      simp [findUnique, hget, hm, htl]

lemma findUnique_none (requested : String) :
    ∀ (l : List (String × CompactContract)),
      (∀ q ∈ l, 2 ≤ (splitChar ':' q.1).length) →
      findUnique requested none l =
        match l.filter (nameMatches requested) with
        | [] => Outcome.ok none
        | [q] => Outcome.ok (some q.2)
        | _ :: _ :: _ => Outcome.error VerifyError.duplicateName := by
  intro l
  induction l with
  | nil => intro _hwf; simp [findUnique]
  | cons hd tl ih =>
    obtain ⟨name, artifact⟩ := hd
    intro hwf
    have h2 : 2 ≤ (splitChar ':' name).length :=
      hwf (name, artifact) (List.mem_cons_self _ _)
    obtain ⟨x, hget⟩ : ∃ x, (splitChar ':' name)[1]? = some x :=
      ⟨(splitChar ':' name).get ⟨1, by omega⟩,
        List.getElem?_eq_getElem (by omega)⟩
    have hwtl := fun q hq => hwf q (List.mem_cons_of_mem _ hq)
    by_cases hm : x = requested
    · have htl := findUnique_some requested artifact tl hwtl
      have hfc : List.filter (nameMatches requested) ((name, artifact) :: tl)
          = (name, artifact) :: List.filter (nameMatches requested) tl := by
        rw [List.filter_cons]
        simp [nameMatches, hget, hm]
      cases hft : tl.filter (nameMatches requested) with
      | nil =>
        rw [hfc]
        simp [findUnique, hget, hm, htl, hft]
      | cons y ys =>
        rw [hfc]
        simp [findUnique, hget, hm, htl, hft]
    · have htl := ih hwtl
      have hfc : List.filter (nameMatches requested) ((name, artifact) :: tl)
          = List.filter (nameMatches requested) tl := by
        rw [List.filter_cons]
        simp [nameMatches, hget, hm]
      rw [hfc]
      simp [findUnique, hget, hm, htl]

/-! ### Claim theorems -/

/-- C3: chain-id resolution maps 1 to Mainnet, 3/4/5/42 to Ropsten,
Rinkeby, Goerli and Kovan, and 100 to XDai, and fails with
`unexpectedChain` on every identifier outside this fixed table, never
yielding a default target. -/
theorem chain_resolution_table :
    resolve_chain 1 = Outcome.ok Chain.Mainnet ∧
    resolve_chain 3 = Outcome.ok Chain.Ropsten ∧
    resolve_chain 4 = Outcome.ok Chain.Rinkeby ∧
    resolve_chain 5 = Outcome.ok Chain.Goerli ∧
    resolve_chain 42 = Outcome.ok Chain.Kovan ∧
    resolve_chain 100 = Outcome.ok Chain.XDai ∧
    ∀ c : Nat, c ≠ 1 → c ≠ 3 → c ≠ 4 → c ≠ 5 → c ≠ 42 → c ≠ 100 →
      resolve_chain c = Outcome.error (VerifyError.unexpectedChain c) := by
  refine ⟨rfl, rfl, rfl, rfl, rfl, rfl, ?_⟩
  intro c h1 h3 h4 h5 h42 h100
  unfold resolve_chain
  split <;> simp_all

/-- Witness for the unsupported-chain clause of C3, at identifier 999. -/
theorem chain_resolution_table_witness :
    resolve_chain 999 = Outcome.error (VerifyError.unexpectedChain 999) :=
  chain_resolution_table.2.2.2.2.2.2 999 (by decide) (by decide) (by decide)
    (by decide) (by decide) (by decide)

/-- C4: a response with the failure status code "0" and the message
"Contract source code already verified" is classified as a success, not an
error. -/
theorem already_verified_is_success (resp : Response)
    (hstatus : resp.status = "0")
    (hmsg : resp.message = "Contract source code already verified") :
    classify_response resp = Outcome.ok () := by
  simp [classify_response, hstatus, hmsg]

/-- Witness for C4 at a concrete already-verified response. -/
theorem already_verified_is_success_witness :
    classify_response
        { status := "0"
          message := "Contract source code already verified"
          result := "x" } = Outcome.ok () :=
  already_verified_is_success
    { status := "0"
      message := "Contract source code already verified"
      result := "x" } rfl rfl

/-- C8: a response with the failure status code "0" and any message other
than the already-verified one is classified as a rejection error carrying
the service's message and result payload verbatim. -/
theorem rejection_carries_payload (resp : Response)
    (hstatus : resp.status = "0")
    (hmsg : resp.message ≠ "Contract source code already verified") :
    classify_response resp =
      Outcome.error (VerifyError.verificationRejected resp.message resp.result) := by
  simp [classify_response, hstatus, hmsg]

/-- Witness for C8 at a concrete rejected response. -/
theorem rejection_carries_payload_witness :
    classify_response
        { status := "0"
          message := "Unable to locate ContractCode"
          result := "NOTOK" } =
      Outcome.error
        (VerifyError.verificationRejected "Unable to locate ContractCode" "NOTOK") :=
  rejection_carries_payload
    { status := "0"
      message := "Unable to locate ContractCode"
      result := "NOTOK" } rfl (by decide)

/-- C5: over artifact sets whose qualified names all contain the `':'`
separator, by-name lookup with zero matching artifacts fails with the
artifact-not-found error, with two or more matches fails with the
duplicate-name (ambiguous artifact) error, and with exactly one match
returns that artifact's ABI and bytecode. -/
theorem name_lookup_cases (requested : String)
    (compiled : List (String × CompactContract))
    (hwf : ∀ q ∈ compiled, ':' ∈ q.1.data) :
    (compiled.filter (nameMatches requested) = [] →
      get_artifact_from_name requested compiled =
        Outcome.error VerifyError.artifactNotFound) ∧
    (2 ≤ (compiled.filter (nameMatches requested)).length →
      get_artifact_from_name requested compiled =
        Outcome.error VerifyError.duplicateName) ∧
    (∀ q abi bin, compiled.filter (nameMatches requested) = [q] →
      q.2.abi = some abi → q.2.bin = some bin →
      get_artifact_from_name requested compiled = Outcome.ok (abi, bin)) := by
  have hwf' : ∀ q ∈ compiled, 2 ≤ (splitChar ':' q.1).length :=
    fun q hq => (colon_mem_iff_two_le q.1).mp (hwf q hq)
  have hfu := findUnique_none requested compiled hwf'
  refine ⟨?_, ?_, ?_⟩
  · intro hempty
    rw [hempty] at hfu
    simp [get_artifact_from_name, Outcome.bind, hfu]
  · intro hlen
    cases hft : compiled.filter (nameMatches requested) with
    | nil =>
      rw [hft] at hlen
      simp at hlen
    | cons y ys =>
      cases ys with
      | nil =>
        rw [hft] at hlen
        simp at hlen
      | cons z zs =>
        rw [hft] at hfu
        simp [get_artifact_from_name, Outcome.bind, hfu]
  · intro q abi bin hone habi hbin
    rw [hone] at hfu
    simp [get_artifact_from_name, Outcome.bind, hfu, habi, hbin]

/-- Witness for C5: a singleton compiled set with the one artifact named
"Token" is returned by name-only lookup. -/
theorem name_lookup_cases_witness :
    get_artifact_from_name "Token" [("a.sol:Token", art_token)] =
      Outcome.ok ({ constructor := none }, "6080") :=
  (name_lookup_cases "Token" [("a.sol:Token", art_token)] (by decide)).2.2
    ("a.sol:Token", art_token) { constructor := none } "6080" rfl rfl rfl

/-- C6: path-scoped lookup on the file's artifact records restricted to
the requested contract name fails with the artifact-not-found error when
the set is empty, fails with the duplicate-contract-in-file error when it
holds more than one artifact, and returns the single artifact's ABI and
bytecode when it holds exactly one. -/
theorem path_lookup_cases (requested : String)
    (artifacts : List CompactContract) :
    (artifacts = [] →
      get_artifact_from_path requested artifacts =
        Outcome.error VerifyError.artifactNotFound) ∧
    (2 ≤ artifacts.length →
      get_artifact_from_path requested artifacts =
        Outcome.error VerifyError.duplicateInFile) ∧
    (∀ a abi bin, artifacts = [a] → a.abi = some abi → a.bin = some bin →
      get_artifact_from_path requested artifacts = Outcome.ok (abi, bin)) := by
  refine ⟨?_, ?_, ?_⟩
  · intro h
    subst h
    simp [get_artifact_from_path]
  · intro hlen
    cases artifacts with
    | nil => simp at hlen
    | cons a tl =>
      cases tl with
      | nil => simp at hlen
      | cons b tl2 =>
        have hlt : 1 < (a :: b :: tl2).length := by
          simp only [List.length_cons]
          omega
        simp [get_artifact_from_path, hlt]
  · intro a abi bin h habi hbin
    subst h
    simp [get_artifact_from_path, habi, hbin]

/-- Witness for C6: a singleton restricted artifact set is returned. -/
theorem path_lookup_cases_witness :
    get_artifact_from_path "Token" [art_token] =
      Outcome.ok ({ constructor := none }, "6080") :=
  (path_lookup_cases "Token" [art_token]).2.2 art_token
    { constructor := none } "6080" rfl rfl rfl

/-- C10: by-name lookup never aborts when every qualified name contains a
`':'` separator, and on a set containing a colon-free qualified name it
aborts with the out-of-bounds indexing panic instead of returning a typed
result. -/
theorem name_lookup_panics_without_colon :
    (∀ (requested : String) (compiled : List (String × CompactContract)),
      (∀ q ∈ compiled, ':' ∈ q.1.data) →
      ∀ m, get_artifact_from_name requested compiled ≠ Outcome.panic m) ∧
    get_artifact_from_name "Token" [("Token", art_token)] =
      Outcome.panic "index out of bounds" := by
  constructor
  · intro requested compiled hwf m
    have hwf' : ∀ q ∈ compiled, 2 ≤ (splitChar ':' q.1).length :=
      fun q hq => (colon_mem_iff_two_le q.1).mp (hwf q hq)
    have hfu := findUnique_none requested compiled hwf'
    cases hft : compiled.filter (nameMatches requested) with
    | nil =>
      rw [hft] at hfu
      simp [get_artifact_from_name, Outcome.bind, hfu]
    | cons y ys =>
      cases ys with
      | nil =>
        rw [hft] at hfu
        cases habi : y.2.abi with
        | none => simp [get_artifact_from_name, Outcome.bind, hfu, habi]
        | some abi =>
          cases hbin : y.2.bin with
          | none => simp [get_artifact_from_name, Outcome.bind, hfu, habi, hbin]
          | some bin => simp [get_artifact_from_name, Outcome.bind, hfu, habi, hbin]
      | cons z zs =>
        rw [hft] at hfu
        simp [get_artifact_from_name, Outcome.bind, hfu]
  · rfl

/-- Witness for the totality clause of C10 on a well-formed singleton. -/
theorem name_lookup_panics_without_colon_witness :
    get_artifact_from_name "Token" [("a.sol:Token", art_token)] ≠
      Outcome.panic "index out of bounds" :=
  name_lookup_panics_without_colon.1 "Token" [("a.sol:Token", art_token)]
    (by decide) "index out of bounds"

/-- C7: when the resolved ABI declares no constructor, any non-empty
user-supplied argument list fails with the no-constructor-but-arguments
error under every encoding collaborator; an empty argument list performs
no encoding (the result is the same for every encoder) and the assembled
request carries no constructor-argument bytes. -/
theorem no_constructor_args_guard
    (calldata : String → List String → Outcome String)
    (abi : Contract) (hno : abi.constructor = none) :
    (∀ args : List String, args ≠ [] →
      constructor_args_step calldata abi args =
        Outcome.error VerifyError.noConstructorButArgs) ∧
    constructor_args_step calldata abi [] = Outcome.ok none ∧
    (∀ (inp : RunInputs) (a : CompactContract) (req : VerifyContract),
      inp.pathArtifacts = [a] → a.abi = some abi → inp.args = [] →
      run_build_request calldata inp = Outcome.ok req →
      req.constructor_arguments = none) := by
  refine ⟨?_, ?_, ?_⟩
  · intro args hne
    cases args with
    | nil => exact absurd rfl hne
    | cons c cs => simp [constructor_args_step, hno]
  · simp [constructor_args_step, hno]
  · intro inp a req hpa habi hargs hreq
    cases hpath : inp.contract.path with
    | none => simp [run_build_request, hpath] at hreq
    | some contract_path =>
      simp only [run_build_request, hpath] at hreq
      obtain ⟨located, hloc, hreq⟩ := bind_eq_ok hreq
      rw [hpa] at hloc
      cases hbin : a.bin with
      | none => simp [get_artifact_from_path, habi, hbin] at hloc
      | some bin =>
        simp [get_artifact_from_path, habi, hbin] at hloc
        obtain ⟨cargs, hcargs, hreq⟩ := bind_eq_ok hreq
        rw [← hloc, hargs] at hcargs
        simp [constructor_args_step, hno] at hcargs
        obtain ⟨ch, hch, hreq⟩ := bind_eq_ok hreq
        obtain ⟨ver, hver, hreq⟩ := bind_eq_ok hreq
        simp at hreq
        rw [← hreq, ← hcargs]

/-- Witness for C7: one argument against a constructor-less ABI fails. -/
theorem no_constructor_args_guard_witness :
    constructor_args_step calldata0 abi_plain ["100"] =
      Outcome.error VerifyError.noConstructorButArgs :=
  (no_constructor_args_guard calldata0 abi_plain rfl).1 ["100"] (by decide)

/-- C9: when the ABI declares a constructor, the synthetic function
descriptor is named "constructor", carries the constructor's inputs, has
no outputs, and uses the non-payable default mutability; the encoded
constructor arguments are exactly the encoding collaborator's output for
the user-supplied argument strings against that descriptor's canonical
signature. -/
theorem constructor_descriptor_encoding
    (calldata : String → List String → Outcome String)
    (abi : Contract) (c : Constructor) (args : List String)
    (hc : abi.constructor = some c) :
    (mk_constructor_function c).name = "constructor" ∧
    (mk_constructor_function c).inputs = c.inputs ∧
    (mk_constructor_function c).outputs = [] ∧
    (mk_constructor_function c).state_mutability = StateMutability.nonpayable ∧
    (mk_constructor_function c).state_mutability = default ∧
    constructor_args_step calldata abi args =
      Outcome.bind (calldata (mk_constructor_function c).signature args)
        (fun data => Outcome.ok (some data)) := by
  refine ⟨rfl, rfl, rfl, rfl, rfl, ?_⟩
  simp [constructor_args_step, hc]

/-- Witness for C9 on the `(uint256, string)` constructor. -/
theorem constructor_descriptor_encoding_witness :
    constructor_args_step calldata0 abi_token ["100", "hello"] =
      Outcome.bind
        (calldata0 (mk_constructor_function ctor_token).signature ["100", "hello"])
        (fun data => Outcome.ok (some data)) :=
  (constructor_descriptor_encoding calldata0 abi_token ctor_token
    ["100", "hello"] rfl).2.2.2.2.2

/-- C1 counterexample: a concrete invocation with no source path whose
compiled output holds exactly one artifact named "Token" — the by-name
lookup would succeed on it, yet `run` fails with the path-required error
instead of selecting the by-name retrieval mode. -/
theorem no_path_invocation_rejected :
    inp_no_path.contract.path = none ∧
    get_artifact_from_name inp_no_path.contract.name inp_no_path.compiled =
      Outcome.ok ({ constructor := none }, "6080") ∧
    run calldata0 inp_no_path = Outcome.error VerifyError.pathRequired :=
  ⟨rfl, rfl, rfl⟩

/-- C1 amended: every verify invocation whose contract reference has no
source path fails with the path-required error; the by-name retrieval
routine exists but is never selected by `run`. -/
theorem no_path_invocation_always_fails
    (calldata : String → List String → Outcome String) (inp : RunInputs)
    (h : inp.contract.path = none) :
    run calldata inp = Outcome.error VerifyError.pathRequired := by
  simp [run, run_build_request, h, Outcome.bind]

/-- Witness for the amended C1 at the concrete no-path invocation. -/
theorem no_path_invocation_always_fails_witness :
    run calldata0 inp_no_path = Outcome.error VerifyError.pathRequired :=
  no_path_invocation_always_fails calldata0 inp_no_path rfl

/-- C2: on a source file with no compiler-version directive line the
extraction returns `None` and `run` unwraps it, aborting (modelled panic)
instead of returning a typed missing-compiler-version error; on a file
whose directive line is present the declared version token is
extracted. -/
theorem missing_pragma_aborts_run :
    get_compiler_version ["contract C"] = Outcome.ok none ∧
    compiler_version_step ["contract C"] =
      Outcome.panic "called Option.unwrap on a None value" ∧
    run calldata0 inp_no_pragma =
      Outcome.panic "called Option.unwrap on a None value" ∧
    get_compiler_version ["pragma solidity ^0.8.0;", "contract C"] =
      Outcome.ok (some "^0.8.0;") :=
  ⟨rfl, rfl, rfl, rfl⟩

end Verify
